import Mathlib

/-!
Verification of `sfm-utils` (files `sfmutils/result.py` and
`sfmutils/consumer.py`) against its natural-language specification.

The Python code is shallowly embedded: plain classes become structures,
methods become functions on those structures, side effects (broker calls,
acknowledgments, hook invocations, object allocation) become explicit
event traces and state passing, and Python assertion failures become
`Except` errors.  Python truthiness of optional strings (`None` and `""`
are falsy) is modelled by `truthy`.
-/

namespace SfmUtils

/-- Python truthiness for an optional string: `None` and `""` are falsy,
every other string is truthy.  Used wherever the source writes
`if some_string_value:`. -/
def truthy : Option String → Bool
  | none => false
  | some s => !s.isEmpty

/-- A Python error raised by the embedded code.  The source only ever
raises `AssertionError` itself (via `assert`); calling a `None` value,
as `get_consumers` would do on an inert instance, raises `TypeError`. -/
inductive PyErr
  | assertionError
  | typeError
deriving DecidableEq, Repr

/-- Python rendering of a `bool` by `str.format`, used in
`BaseResult.__str__`. -/
def pyBoolStr (b : Bool) : String :=
  if b then "True" else "False"

/-- `Msg` from `sfmutils/result.py`: an informational, warning, or error
message carried by a result.  Fields mirror the instance attributes set
in `Msg.__init__`. -/
structure Msg where
  code : String
  message : String
deriving DecidableEq, Repr

/-- `Msg.__init__`: `assert code; assert message` then store both fields.
Arguments are optional strings so that absent (`None`) and empty values
are both expressible; a falsy argument makes the `assert` raise. -/
def mkMsg (code message : Option String) : Except PyErr Msg :=
  if !truthy code then Except.error PyErr.assertionError
  else if !truthy message then Except.error PyErr.assertionError
  else Except.ok { code := code.getD "", message := message.getD "" }

/-- `BaseResult` from `sfmutils/result.py`.  `started`/`ended` are the
optional timestamps (rendered via `str.format`, so kept as strings here);
the three message lists are kept in append order.  `resultName` and
`addl` stand for the specialization hooks `_result_name` and
`_addl_str()` (both return `""` in the base class). -/
structure BaseResult where
  success : Bool
  started : Option String
  ended : Option String
  infos : List Msg
  warnings : List Msg
  errors : List Msg
  resultName : String
  addl : String
deriving DecidableEq, Repr

/-- `BaseResult.__init__`: success defaults to true, timestamps unset,
message lists empty. -/
def BaseResult.init : BaseResult :=
  { success := true, started := none, ended := none,
    infos := [], warnings := [], errors := [],
    resultName := "", addl := "" }

/-- `BaseResult.__nonzero__`: `1 if self.success else 0`. -/
def BaseResult.nonzero (r : BaseResult) : Nat :=
  if r.success then 1 else 0

/-- Python truthiness of a `BaseResult`: `bool(r)` is the boolean value
of `r.__nonzero__()`, i.e. whether it is nonzero. -/
def BaseResult.toBool (r : BaseResult) : Bool :=
  r.nonzero != 0

/-- The entry-rendering loop body of `BaseResult._str_messages`:
`"({}) [{}] {}".format(i, msg.code, msg.message)` for each message,
with `i` counting up from the given start index. -/
def strMessagesLoop : Nat → List Msg → String
  | _, [] => ""
  | i, m :: rest =>
      "(" ++ toString i ++ ") [" ++ m.code ++ "] " ++ m.message
        ++ strMessagesLoop (i + 1) rest

/-- `BaseResult._str_messages`: a header `" <name> messages are:"` when
the list is non-empty, then each message rendered by the loop with
`enumerate(messages, start=1)`. -/
def strMessages (messages : List Msg) (name : String) : String :=
  (if messages.isEmpty then "" else " " ++ name ++ " messages are:")
    ++ strMessagesLoop 1 messages

/-- `BaseResult.__str__`: sequential `str_text +=` appends, mirroring the
source line by line. -/
def BaseResult.render (r : BaseResult) : String :=
  let t0 := r.resultName ++ " response is " ++ pyBoolStr r.success ++ "."
  let t1 := match r.started with
    | some s => t0 ++ " Started: " ++ s
    | none => t0
  let t2 := match r.ended with
    | some e => t1 ++ " Ended: " ++ e
    | none => t1
  let t3 := t2 ++ strMessages r.infos "Informational"
  let t4 := t3 ++ strMessages r.warnings "Warning"
  let t5 := t4 ++ strMessages r.errors "Error"
  t5 ++ r.addl

/-- One rendered message entry, as the spec describes it:
`(index) [code] message`. -/
def entryRender (i : Nat) (m : Msg) : String :=
  "(" ++ toString i ++ ") [" ++ m.code ++ "] " ++ m.message

/-- Concatenation of a list of rendered fragments, used to state the
spec's reading of the message-block format. -/
def concatAll : List String → String
  | [] => ""
  | s :: rest => s ++ concatAll rest

/-- Whether the character list starts with the given character list. -/
def startsWithChars : List Char → List Char → Bool
  | [], _ => true
  | _ :: _, [] => false
  | a :: as, b :: bs => a == b && startsWithChars as bs

/-- Whether `sub` occurs contiguously inside `l`. -/
def containsChars (sub : List Char) : List Char → Bool
  | [] => sub.isEmpty
  | c :: rest => startsWithChars sub (c :: rest) || containsChars sub rest

/-- A concrete result holding one error message, as in the spec's
example: `Msg("E001", "disk full")`. -/
def diskFullResult : BaseResult :=
  { BaseResult.init with errors := [{ code := "E001", message := "disk full" }] }

/-!
Embedding of `sfmutils/consumer.py`.

Kombu objects are modelled structurally: a `Conn` is a connection
descriptor (its `id` models Python object identity — each allocation
draws a fresh id from the owning state's counter), `ExchangeObj` and
`QueueObj` mirror the keyword arguments the source passes to kombu's
`Exchange` and `Queue` constructors.  Broker-side effects of
`get_consumers` are recorded in order as a list of `BrokerOp`s, and the
per-message callback records its effects as a list of `CEvent`s.
-/

/-- A kombu `Connection` descriptor as created in `BaseConsumer.__init__`
(`transport="librabbitmq"`, hostname, userid, password).  `id` models
Python object identity. -/
structure Conn where
  id : Nat
  transport : String
  hostname : String
  userid : String
  password : String
deriving DecidableEq, Repr

/-- `Connection.clone()`: a new connection object (fresh identity) with
the same parameters. -/
def Conn.clone (c : Conn) (freshId : Nat) : Conn :=
  { c with id := freshId }

/-- A kombu `Exchange` as created in `BaseConsumer.__init__`
(`name=mq_config.exchange, type="topic", durable=True`). -/
structure ExchangeObj where
  name : String
  etype : String
  durable : Bool
deriving DecidableEq, Repr

/-- A kombu `Queue` as created in `BaseConsumer.get_consumers`
(`name=queue_name, exchange=self.exchange, durable=True`). -/
structure QueueObj where
  name : String
  exchangeName : String
  durable : Bool
deriving DecidableEq, Repr

/-- `MqConfig` from `sfmutils/consumer.py`.  `host`, `username` and
`password` are optional so that absent (`None`) values are expressible;
`queues` maps queue names to lists of routing keys (a Python dict,
modelled as an association list in iteration order). -/
structure MqConfig where
  host : Option String
  username : Option String
  password : Option String
  exchange : String
  queues : List (String × List String)
deriving DecidableEq, Repr

/-- The state of a `BaseConsumer` instance after `__init__`. -/
structure ConsumerState where
  mqConfig : Option MqConfig
  connection : Option Conn
  exchange : Option ExchangeObj
  message : Option String
  routingKey : Option String
deriving DecidableEq, Repr

/-- `BaseConsumer.__init__`: when the config and its host, username and
password are all truthy, build the connection descriptor and the topic
exchange; otherwise leave both as `None`.  `message` and `routing_key`
start unset. -/
def consumerInit (mqConfig : Option MqConfig) : ConsumerState :=
  match mqConfig with
  | some cfg =>
      if truthy cfg.host && truthy cfg.username && truthy cfg.password then
        { mqConfig := some cfg,
          connection := some { id := 0, transport := "librabbitmq",
                               hostname := cfg.host.getD "",
                               userid := cfg.username.getD "",
                               password := cfg.password.getD "" },
          exchange := some { name := cfg.exchange, etype := "topic", durable := true },
          message := none, routingKey := none }
      else
        { mqConfig := some cfg, connection := none, exchange := none,
          message := none, routingKey := none }
  | none =>
      { mqConfig := none, connection := none, exchange := none,
        message := none, routingKey := none }

/-- A broker-side declaration issued during `get_consumers`, in program
order. -/
inductive BrokerOp
  | declareExchange (name : String) (etype : String) (durable : Bool)
  | declareQueue (name : String) (durable : Bool)
  | bindQueue (queue : String) (exchange : String) (routingKey : String)
deriving DecidableEq, Repr

/-- The consumer object built at the end of `get_consumers`:
`Consumer(queues=queues, callbacks=[self._callback], auto_declare=False)`
followed by `consumer.qos(prefetch_count=1, apply_global=True)`.
`qosSettings` is `none` until `qos` is called. -/
structure ConsumerSpec where
  queues : List QueueObj
  autoDeclare : Bool
  qosSettings : Option (Nat × Bool)
deriving DecidableEq, Repr

/-- `Consumer(...)` construction: stores the queue list, disables
auto-declare, no QoS yet. -/
def mkConsumerSpec (queues : List QueueObj) (autoDeclare : Bool) : ConsumerSpec :=
  { queues := queues, autoDeclare := autoDeclare, qosSettings := none }

/-- `consumer.qos(prefetch_count, apply_global)`. -/
def ConsumerSpec.qos (c : ConsumerSpec) (prefetchCount : Nat) (applyGlobal : Bool) :
    ConsumerSpec :=
  { c with qosSettings := some (prefetchCount, applyGlobal) }

/-- The `for queue_name, routing_keys in self.mq_config.queues.items()`
loop of `get_consumers`: declare each queue durable, bind it once per
routing key, and collect the queue objects.  Returns the broker ops in
issue order and the accumulated `queues` list. -/
def declareQueuesLoop (ex : ExchangeObj) :
    List (String × List String) → List BrokerOp × List QueueObj
  | [] => ([], [])
  | (queueName, routingKeys) :: rest =>
      let q : QueueObj := { name := queueName, exchangeName := ex.name, durable := true }
      let ops := BrokerOp.declareQueue queueName true ::
        routingKeys.map (fun rk => BrokerOp.bindQueue queueName ex.name rk)
      let restResult := declareQueuesLoop ex rest
      (ops ++ restResult.1, q :: restResult.2)

/-- `BaseConsumer.get_consumers`: `assert self.mq_config` (an absent
config raises `AssertionError` before anything is declared); calling
`self.exchange(channel)` on an inert instance would raise `TypeError`;
otherwise declare the exchange, run the queue loop, and return the
single consumer with auto-declare off and global prefetch 1. -/
def getConsumers (s : ConsumerState) :
    Except PyErr (List BrokerOp × List ConsumerSpec) :=
  match s.mqConfig with
  | none => Except.error PyErr.assertionError
  | some cfg =>
      match s.exchange with
      | none => Except.error PyErr.typeError
      | some ex =>
          let loopResult := declareQueuesLoop ex cfg.queues
          let consumer := (mkConsumerSpec loopResult.2 false).qos 1 true
          Except.ok (BrokerOp.declareExchange ex.name ex.etype ex.durable :: loopResult.1,
                     [consumer])

/-- An observable effect of `BaseConsumer._callback`, in program order:
the two assignments to the consumer's current-message state, the broker
acknowledgment, and the `on_message()` hook invocation. -/
inductive CEvent
  | setRoutingKey (rk : String)
  | setMessage (body : String)
  | ack
  | onMessage
deriving DecidableEq, Repr

/-- The delivered message object (`message_obj`): carries
`delivery_info["routing_key"]` and an `ack()` capability. -/
structure MessageObj where
  deliveryRoutingKey : String
deriving DecidableEq, Repr

/-- `BaseConsumer._callback(message, message_obj)`: store the routing key
from delivery metadata and the raw message on the instance, acknowledge,
then invoke `on_message()`.  Returns the updated state and the ordered
event trace. -/
def callback (s : ConsumerState) (message : String) (messageObj : MessageObj) :
    ConsumerState × List CEvent :=
  let rk := messageObj.deliveryRoutingKey
  let s1 := { s with routingKey := some rk, message := some message }
  (s1, [CEvent.setRoutingKey rk, CEvent.setMessage message, CEvent.ack, CEvent.onMessage])

/-- The `ConsumerProducerMixin` portion of a consumer's state:
the consuming connection, the lazily-created `_producer_connection`
(class attribute `None` until first publish), and the allocation counter
modelling Python object creation. -/
structure MixinState where
  connection : Conn
  producerConnection : Option Conn
  nextId : Nat
deriving DecidableEq, Repr

/-- An observable effect of the mixin: establishing the cloned
connection (`ensure_connection`) or closing a connection, each tagged
with the object identity involved. -/
inductive MEvent
  | ensureConnection (connId : Nat)
  | closeConn (connId : Nat)
deriving DecidableEq, Repr

/-- `ConsumerProducerMixin.producer_connection`: on first access clone
the consuming connection, establish it, and cache it; afterwards return
the cached object unchanged. -/
def producerConnectionGet (s : MixinState) : Conn × MixinState × List MEvent :=
  match s.producerConnection with
  | some conn => (conn, s, [])
  | none =>
      let conn := s.connection.clone s.nextId
      (conn,
       { s with producerConnection := some conn, nextId := s.nextId + 1 },
       [MEvent.ensureConnection conn.id])

/-- A kombu `Producer`: holds the connection it publishes on; `id`
models Python object identity. -/
structure ProducerObj where
  id : Nat
  conn : Conn
deriving DecidableEq, Repr

/-- `ConsumerProducerMixin.producer`: `Producer(self.producer_connection)`
— a freshly allocated producer over the (possibly just created)
producer connection. -/
def producerGet (s : MixinState) : ProducerObj × MixinState × List MEvent :=
  let pc := producerConnectionGet s
  ({ id := pc.2.1.nextId, conn := pc.1 },
   { pc.2.1 with nextId := pc.2.1.nextId + 1 },
   pc.2.2)

/-- `ConsumerProducerMixin.on_consume_end`: close the producer
connection and clear the cache if one exists, otherwise do nothing. -/
def onConsumeEnd (s : MixinState) : MixinState × List MEvent :=
  match s.producerConnection with
  | some conn =>
      ({ s with producerConnection := none }, [MEvent.closeConn conn.id])
  | none => (s, [])

/-! ### Sample values used by witnesses -/

/-- A sample consuming connection descriptor. -/
def sampleConn : Conn :=
  { id := 0, transport := "librabbitmq", hostname := "mq", userid := "sfm",
    password := "pw" }

/-- A sample mixin state whose publish connection has been created
(a clone of `sampleConn` with identity 1). -/
def sampleMixin : MixinState :=
  { connection := sampleConn, producerConnection := some (sampleConn.clone 1),
    nextId := 2 }

/-- `sampleMixin` after its publish connection was cleared. -/
def sampleMixinCleared : MixinState :=
  { connection := sampleConn, producerConnection := none, nextId := 2 }

/-- A sample mixin state that never created a publish connection. -/
def sampleMixinFresh : MixinState :=
  { connection := sampleConn, producerConnection := none, nextId := 1 }

/-- A sample config whose host is empty (falsy). -/
def sampleBadConfig : MqConfig :=
  { host := some "", username := some "sfm", password := some "pw",
    exchange := "sfm_exchange", queues := [] }

/-- A sample complete config with two queues. -/
def sampleConfig : MqConfig :=
  { host := some "mq", username := some "sfm", password := some "pw",
    exchange := "sfm_exchange",
    queues := [("harvester", ["harvest.start.web", "harvest.stop.web"]),
               ("exporter", ["export.start.web"])] }

/-! ### Theorems -/

/-- C1: for every `BaseResult` instance `r`, the boolean truthiness of
`r` equals `r.success` exactly: with `success = False` the result
evaluates as false in a boolean context, with `success = True` as
true. -/
theorem baseResult_toBool_eq_success (r : BaseResult) : r.toBool = r.success := by
  cases h : r.success <;> simp [BaseResult.toBool, BaseResult.nonzero, h]

/-- C2: `_callback` first stores the routing key (from delivery
metadata) and the raw message as the consumer's current state, then
acknowledges, and only then invokes the `on_message` hook; every
occurrence of the hook event in the trace is preceded by the
acknowledgment, so a hook failure happens on an already-acknowledged
message. -/
theorem callback_stores_then_acks_then_hook (s : ConsumerState) (m : String)
    (mo : MessageObj) :
    callback s m mo =
      ({ s with routingKey := some mo.deliveryRoutingKey, message := some m },
       [CEvent.setRoutingKey mo.deliveryRoutingKey, CEvent.setMessage m,
        CEvent.ack, CEvent.onMessage]) ∧
    ∀ pre post, (callback s m mo).2 = pre ++ CEvent.onMessage :: post →
      CEvent.ack ∈ pre := by
  refine ⟨rfl, ?_⟩
  intro pre post h
  simp only [callback] at h
  rcases pre with _ | ⟨a, _ | ⟨b, _ | ⟨c, _ | ⟨d, rest⟩⟩⟩⟩ <;> simp_all

/-- C2 witness: the theorem at a concrete state, message and delivery. -/
theorem callback_stores_then_acks_then_hook_witness :
    callback (consumerInit none) "body" ⟨"harvest.status"⟩ =
      (⟨none, none, none, some "body", some "harvest.status"⟩,
       [CEvent.setRoutingKey "harvest.status", CEvent.setMessage "body",
        CEvent.ack, CEvent.onMessage]) ∧
    CEvent.ack ∈ [CEvent.setRoutingKey "harvest.status", CEvent.setMessage "body",
      CEvent.ack] := by
  refine ⟨(callback_stores_then_acks_then_hook (consumerInit none) "body"
    ⟨"harvest.status"⟩).1, ?_⟩
  exact (callback_stores_then_acks_then_hook (consumerInit none) "body"
    ⟨"harvest.status"⟩).2
    [CEvent.setRoutingKey "harvest.status", CEvent.setMessage "body", CEvent.ack]
    [] rfl

/-- C5: `on_consume_end` closes the lazily-created publish connection
exactly once and is idempotent: if a publish connection exists, the
first call closes exactly it and clears the cache; a second call, or a
call when none was ever created, closes nothing and leaves the state
unchanged. -/
theorem onConsumeEnd_closes_once_idempotent :
    (∀ (s : MixinState) (conn : Conn), s.producerConnection = some conn →
      onConsumeEnd s = ({ s with producerConnection := none },
        [MEvent.closeConn conn.id]) ∧
      onConsumeEnd { s with producerConnection := none } =
        ({ s with producerConnection := none }, [])) ∧
    (∀ s : MixinState, s.producerConnection = none → onConsumeEnd s = (s, [])) := by
  constructor
  · intro s conn h
    constructor
    · simp [onConsumeEnd, h]
    · simp [onConsumeEnd]
  · intro s h
    simp [onConsumeEnd, h]

/-- C5 witness: the theorem at a concrete mixin state holding a cloned
publish connection, and at one holding none. -/
theorem onConsumeEnd_closes_once_idempotent_witness :
    onConsumeEnd sampleMixin = (sampleMixinCleared, [MEvent.closeConn 1]) ∧
    onConsumeEnd sampleMixinCleared = (sampleMixinCleared, []) := by
  have h := onConsumeEnd_closes_once_idempotent.1 sampleMixin
    (sampleConn.clone 1) rfl
  exact ⟨h.1, h.2⟩

/-- C6: constructing a `BaseConsumer` with a missing config object, or
with a config whose host, username, or password is missing/absent
(falsy), yields an inert instance: both the connection and the exchange
are `None`. -/
theorem consumerInit_inert_on_incomplete_config (mqc : Option MqConfig)
    (h : mqc = none ∨ ∃ cfg, mqc = some cfg ∧
      (truthy cfg.host = false ∨ truthy cfg.username = false ∨
       truthy cfg.password = false)) :
    (consumerInit mqc).connection = none ∧ (consumerInit mqc).exchange = none := by
  rcases h with rfl | ⟨cfg, rfl, h⟩
  · simp [consumerInit]
  · rcases h with h | h | h <;> simp [consumerInit, h]

/-- C6 witness: the theorem at `None` config and at a config with an
empty (falsy) host. -/
theorem consumerInit_inert_on_incomplete_config_witness :
    ((consumerInit none).connection = none ∧ (consumerInit none).exchange = none) ∧
    ((consumerInit (some sampleBadConfig)).connection = none ∧
     (consumerInit (some sampleBadConfig)).exchange = none) := by
  constructor
  · exact consumerInit_inert_on_incomplete_config none (Or.inl rfl)
  · exact consumerInit_inert_on_incomplete_config (some sampleBadConfig)
      (Or.inr ⟨sampleBadConfig, rfl, Or.inl (by decide)⟩)

/-- C7: calling `get_consumers` on a consumer whose `mq_config` is
missing fails with an assertion error before any declaration is
attempted: the result is the `AssertionError` alone, so no broker op
list is produced. -/
theorem getConsumers_asserts_mq_config (s : ConsumerState)
    (h : s.mqConfig = none) :
    getConsumers s = Except.error PyErr.assertionError := by
  simp [getConsumers, h]

/-- C7 witness: the theorem at the state built from a `None` config. -/
theorem getConsumers_asserts_mq_config_witness :
    getConsumers (consumerInit none) = Except.error PyErr.assertionError :=
  getConsumers_asserts_mq_config (consumerInit none) rfl

/-- C8: `Msg` construction fails whenever the code or the message text
is empty or absent (falsy), and every successfully constructed `Msg`
carries a non-empty code and non-empty message text. -/
theorem mkMsg_rejects_empty_and_ok_nonempty :
    (∀ code message : Option String,
      truthy code = false ∨ truthy message = false →
      mkMsg code message = Except.error PyErr.assertionError) ∧
    (∀ (code message : Option String) (m : Msg),
      mkMsg code message = Except.ok m →
      m.code.isEmpty = false ∧ m.message.isEmpty = false) := by
  constructor
  · intro code message h
    rcases h with h | h
    · simp [mkMsg, h]
    · cases hc : truthy code <;> simp [mkMsg, hc, h]
  · intro code message m hm
    cases hc : truthy code with
    | false => simp [mkMsg, hc] at hm
    | true =>
      cases hmsg : truthy message with
      | false => simp [mkMsg, hc, hmsg] at hm
      | true =>
        simp [mkMsg, hc, hmsg] at hm
        cases code with
        | none => simp [truthy] at hc
        | some c =>
          cases message with
          | none => simp [truthy] at hmsg
          | some msg =>
            simp [truthy] at hc hmsg
            simp [← hm, Option.getD, hc, hmsg]

/-- C8 witness: the theorem at an empty code, an absent message text,
and a successfully constructed message. -/
theorem mkMsg_rejects_empty_and_ok_nonempty_witness :
    mkMsg (some "") (some "disk full") = Except.error PyErr.assertionError ∧
    mkMsg (some "E001") none = Except.error PyErr.assertionError ∧
    ((Msg.mk "E001" "disk full").code.isEmpty = false ∧
     (Msg.mk "E001" "disk full").message.isEmpty = false) := by
  refine ⟨?_, ?_, ?_⟩
  · exact mkMsg_rejects_empty_and_ok_nonempty.1 (some "") (some "disk full")
      (Or.inl (by decide))
  · exact mkMsg_rejects_empty_and_ok_nonempty.1 (some "E001") none
      (Or.inr (by decide))
  · exact mkMsg_rejects_empty_and_ok_nonempty.2 (some "E001") (some "disk full")
      (Msg.mk "E001" "disk full") rfl

/-- C10: each access of the `producer` property builds a fresh
`Producer` object (two successive accesses return distinct objects over
the same connection), while `producer_connection` is cached: when the
cache holds a connection it is returned as-is with no effects; on first
access it is created by cloning the consuming connection (one
establish effect); a repeated access after that returns the identical
cached object with the state unchanged; and `on_consume_end` clears the
cache. -/
theorem producer_fresh_and_connection_cached :
    (∀ s : MixinState,
      ((producerGet s).1).id ≠ ((producerGet (producerGet s).2.1).1).id) ∧
    (∀ s : MixinState,
      ((producerGet s).1).conn = ((producerGet (producerGet s).2.1).1).conn) ∧
    (∀ (s : MixinState) (conn : Conn), s.producerConnection = some conn →
      producerConnectionGet s = (conn, s, [])) ∧
    (∀ s : MixinState, s.producerConnection = none →
      (producerConnectionGet s).1 = s.connection.clone s.nextId ∧
      (producerConnectionGet s).2.1.producerConnection =
        some (s.connection.clone s.nextId) ∧
      (producerConnectionGet s).2.2 = [MEvent.ensureConnection s.nextId]) ∧
    (∀ s : MixinState,
      producerConnectionGet (producerConnectionGet s).2.1 =
        ((producerConnectionGet s).1, (producerConnectionGet s).2.1, [])) ∧
    (∀ s : MixinState, ((onConsumeEnd s).1).producerConnection = none) := by
  refine ⟨?_, ?_, ?_, ?_, ?_, ?_⟩
  · intro s
    cases h : s.producerConnection <;>
      simp [producerGet, producerConnectionGet, h]
  · intro s
    cases h : s.producerConnection <;>
      simp [producerGet, producerConnectionGet, h]
  · intro s conn h
    simp [producerConnectionGet, h]
  · intro s h
    simp [producerConnectionGet, h, Conn.clone]
  · intro s
    cases h : s.producerConnection <;>
      simp [producerConnectionGet, h]
  · intro s
    cases h : s.producerConnection <;> simp [onConsumeEnd, h]

/-- C10 witness: the theorem at a concrete fresh mixin state and at a
state holding a cached publish connection. -/
theorem producer_fresh_and_connection_cached_witness :
    ((producerGet sampleMixinFresh).1).id ≠
      ((producerGet (producerGet sampleMixinFresh).2.1).1).id ∧
    producerConnectionGet sampleMixin = (sampleConn.clone 1, sampleMixin, []) ∧
    (producerConnectionGet sampleMixinFresh).1 = sampleConn.clone 1 ∧
    ((onConsumeEnd sampleMixin).1).producerConnection = none := by
  refine ⟨producer_fresh_and_connection_cached.1 sampleMixinFresh, ?_, ?_, ?_⟩
  · exact producer_fresh_and_connection_cached.2.2.1 sampleMixin
      (sampleConn.clone 1) rfl
  · exact (producer_fresh_and_connection_cached.2.2.2.1 sampleMixinFresh rfl).1
  · exact producer_fresh_and_connection_cached.2.2.2.2.2 sampleMixin

/-- Every queue listed in the configuration is declared durable by the
queue-declaration loop of `get_consumers`. -/
theorem declareQueue_mem_declareQueuesLoop (ex : ExchangeObj)
    (l : List (String × List String)) (queueName : String)
    (routingKeys : List String) (h : (queueName, routingKeys) ∈ l) :
    BrokerOp.declareQueue queueName true ∈ (declareQueuesLoop ex l).1 := by
  induction l with
  | nil => cases h
  | cons p rest ih =>
    rcases List.mem_cons.mp h with heq | hmem
    · subst heq
      simp [declareQueuesLoop]
    · obtain ⟨qn, rks⟩ := p
      simp only [declareQueuesLoop, List.cons_append, List.mem_cons,
        List.mem_append]
      exact Or.inr (Or.inr (ih hmem))

/-- Counting a binding op inside the ops produced for one queue's
routing-key list. -/
theorem count_bindQueue_map (queueName exName : String)
    (routingKeys : List String) (q rk : String) :
    (routingKeys.map (fun k => BrokerOp.bindQueue queueName exName k)).count
        (BrokerOp.bindQueue q exName rk)
      = if queueName = q then routingKeys.count rk else 0 := by
  induction routingKeys with
  | nil => simp
  | cons k ks ih =>
    by_cases hq : queueName = q
    · subst hq
      simp only [List.map_cons, List.count_cons, ih, if_pos rfl]
      by_cases hk : k = rk
      · subst hk
        simp
      · simp [hk]
    · simp [List.count_cons, ih, hq]

/-- The queue loop never emits a binding for a queue name that is not in
the configuration. -/
theorem count_bindQueue_loop_not_mem (ex : ExchangeObj)
    (l : List (String × List String)) (q rk : String)
    (h : q ∉ l.map Prod.fst) :
    ((declareQueuesLoop ex l).1).count (BrokerOp.bindQueue q ex.name rk) = 0 := by
  induction l with
  | nil => simp [declareQueuesLoop]
  | cons p rest ih =>
    cases p with
    | mk queueName routingKeys =>
      simp only [List.map_cons, List.mem_cons] at h
      push_neg at h
      simp only [declareQueuesLoop, List.cons_append, List.count_cons,
        List.count_append, count_bindQueue_map]
      rw [ih h.2]
      simp [h.1, Ne.symm h.1]

/-- The number of bindings the queue loop issues for a given
(queue, routing-key) pair: exactly one when the pair is listed in a
duplicate-free configuration, zero otherwise. -/
theorem count_bindQueue_loop (ex : ExchangeObj)
    (l : List (String × List String)) (q rk : String)
    (hn : (l.map Prod.fst).Nodup) (hk : ∀ p ∈ l, (Prod.snd p).Nodup) :
    ((declareQueuesLoop ex l).1).count (BrokerOp.bindQueue q ex.name rk)
      = if l.any (fun p => p.1 == q && decide (rk ∈ p.2)) then 1 else 0 := by
  induction l with
  | nil => simp [declareQueuesLoop]
  | cons p rest ih =>
    cases p with
    | mk queueName routingKeys =>
      simp only [List.map_cons, List.nodup_cons] at hn
      have hkeys : routingKeys.Nodup := hk (queueName, routingKeys) (by simp)
      have hrest : ∀ p ∈ rest, (Prod.snd p).Nodup := by
        intro p hp
        exact hk p (List.mem_cons_of_mem _ hp)
      simp only [declareQueuesLoop, List.cons_append, List.count_cons,
        List.count_append, count_bindQueue_map, List.any_cons]
      by_cases hq : queueName = q
      · subst hq
        rw [count_bindQueue_loop_not_mem ex rest queueName rk hn.1]
        by_cases hmem : rk ∈ routingKeys
        · have hone : routingKeys.count rk = 1 :=
            List.count_eq_one_of_mem hkeys hmem
          simp [hone, hmem]
        · have hzero : routingKeys.count rk = 0 :=
            List.count_eq_zero_of_not_mem hmem
          have hany : rest.any (fun p => p.1 == queueName && decide (rk ∈ p.2))
              = false := by
            rw [List.any_eq_false]
            intro p hp
            have hne : p.1 ≠ queueName := by
              intro heq
              exact hn.1 (heq ▸ List.mem_map_of_mem Prod.fst hp)
            simp [hne]
          simp [hzero, hmem, hany]
      · rw [ih hn.2 hrest]
        have hcond :
            (queueName == q && decide (rk ∈ routingKeys)
              || rest.any fun p => p.1 == q && decide (rk ∈ p.2))
            = rest.any fun p => p.1 == q && decide (rk ∈ p.2) := by
          rw [beq_eq_false_iff_ne.mpr hq]
          simp
        simp only [hcond]
        simp [hq]

/-- The queue objects accumulated by the queue-declaration loop are
exactly the configured queues, in order. -/
theorem queueNames_declareQueuesLoop (ex : ExchangeObj)
    (l : List (String × List String)) :
    ((declareQueuesLoop ex l).2).map QueueObj.name = l.map Prod.fst := by
  induction l with
  | nil => rfl
  | cons p rest ih =>
    obtain ⟨qn, rks⟩ := p
    simp [declareQueuesLoop, ih]

/-- C3: for every valid queue-configuration mapping (distinct queue
names, duplicate-free routing-key sets), startup declares each
configured queue as durable and issues exactly one binding between that
queue and the configured exchange per listed routing-key pattern: the
count of binding declarations for a (queue, routing-key) pair is 1 when
the pair is listed and 0 otherwise. -/
theorem getConsumers_binds_each_pair_once (cfg : MqConfig)
    (hhost : truthy cfg.host = true) (huser : truthy cfg.username = true)
    (hpass : truthy cfg.password = true)
    (hqueues : (cfg.queues.map Prod.fst).Nodup)
    (hkeys : ∀ p ∈ cfg.queues, (Prod.snd p).Nodup) :
    ∃ ops consumers,
      getConsumers (consumerInit (some cfg)) = Except.ok (ops, consumers) ∧
      (∀ queueName routingKeys, (queueName, routingKeys) ∈ cfg.queues →
        BrokerOp.declareQueue queueName true ∈ ops) ∧
      (∀ queueName rk,
        ops.count (BrokerOp.bindQueue queueName cfg.exchange rk)
          = if cfg.queues.any (fun p => p.1 == queueName && decide (rk ∈ p.2))
            then 1 else 0) := by
  have hcred : (truthy cfg.host && truthy cfg.username && truthy cfg.password)
      = true := by
    rw [hhost, huser, hpass]
    rfl
  refine ⟨BrokerOp.declareExchange cfg.exchange "topic" true ::
      (declareQueuesLoop ⟨cfg.exchange, "topic", true⟩ cfg.queues).1,
    [(mkConsumerSpec
        (declareQueuesLoop ⟨cfg.exchange, "topic", true⟩ cfg.queues).2
        false).qos 1 true],
    ?_, ?_, ?_⟩
  · simp [consumerInit, hcred, getConsumers]
  · intro queueName routingKeys hmem
    exact List.mem_cons_of_mem _
      (declareQueue_mem_declareQueuesLoop ⟨cfg.exchange, "topic", true⟩
        cfg.queues queueName routingKeys hmem)
  · intro queueName rk
    rw [List.count_cons,
      count_bindQueue_loop ⟨cfg.exchange, "topic", true⟩ cfg.queues
        queueName rk hqueues hkeys]
    simp

/-- C3 witness: the theorem at a concrete two-queue configuration. -/
theorem getConsumers_binds_each_pair_once_witness :
    ∃ ops consumers,
      getConsumers (consumerInit (some sampleConfig)) =
        Except.ok (ops, consumers) ∧
      (∀ queueName routingKeys,
        (queueName, routingKeys) ∈ sampleConfig.queues →
        BrokerOp.declareQueue queueName true ∈ ops) ∧
      (∀ queueName rk,
        ops.count (BrokerOp.bindQueue queueName sampleConfig.exchange rk)
          = if sampleConfig.queues.any
              (fun p => p.1 == queueName && decide (rk ∈ p.2))
            then 1 else 0) :=
  getConsumers_binds_each_pair_once sampleConfig (by decide) (by decide)
    (by decide) (by decide) (by decide)

/-- C4: startup registers exactly one consumer, spanning all declared
queues (its queue list is the loop's queue objects, whose names are
exactly the configured queue names), with auto-declare disabled and a
QoS of prefetch count 1 applied globally. -/
theorem getConsumers_one_consumer_prefetch_one (cfg : MqConfig)
    (hhost : truthy cfg.host = true) (huser : truthy cfg.username = true)
    (hpass : truthy cfg.password = true) :
    ∃ ops,
      getConsumers (consumerInit (some cfg)) =
        Except.ok (ops,
          [⟨(declareQueuesLoop ⟨cfg.exchange, "topic", true⟩ cfg.queues).2,
            false, some (1, true)⟩]) ∧
      ((declareQueuesLoop ⟨cfg.exchange, "topic", true⟩ cfg.queues).2).map
          QueueObj.name
        = cfg.queues.map Prod.fst := by
  have hcred : (truthy cfg.host && truthy cfg.username && truthy cfg.password)
      = true := by
    rw [hhost, huser, hpass]
    rfl
  refine ⟨BrokerOp.declareExchange cfg.exchange "topic" true ::
      (declareQueuesLoop ⟨cfg.exchange, "topic", true⟩ cfg.queues).1, ?_, ?_⟩
  · simp [consumerInit, hcred, getConsumers, mkConsumerSpec, ConsumerSpec.qos]
  · exact queueNames_declareQueuesLoop ⟨cfg.exchange, "topic", true⟩ cfg.queues

/-- C4 witness: the theorem at a concrete two-queue configuration. -/
theorem getConsumers_one_consumer_prefetch_one_witness :
    ∃ ops,
      getConsumers (consumerInit (some sampleConfig)) =
        Except.ok (ops,
          [⟨(declareQueuesLoop ⟨sampleConfig.exchange, "topic", true⟩
              sampleConfig.queues).2,
            false, some (1, true)⟩]) ∧
      ((declareQueuesLoop ⟨sampleConfig.exchange, "topic", true⟩
          sampleConfig.queues).2).map QueueObj.name
        = sampleConfig.queues.map Prod.fst :=
  getConsumers_one_consumer_prefetch_one sampleConfig (by decide) (by decide)
    (by decide)

/-- The rendering loop of `_str_messages` numbers its entries upward
from the start index in list (append) order. -/
theorem strMessagesLoop_eq_concat_enumFrom (i : Nat) (msgs : List Msg) :
    strMessagesLoop i msgs
      = concatAll ((List.enumFrom i msgs).map (fun p => entryRender p.1 p.2)) := by
  induction msgs generalizing i with
  | nil => rfl
  | cons m rest ih =>
    simp only [List.enumFrom_cons, List.map_cons]
    show strMessagesLoop i (m :: rest)
      = entryRender i m ++ concatAll
          ((List.enumFrom (i + 1) rest).map (fun p => entryRender p.1 p.2))
    rw [← ih (i + 1)]
    rfl

/-- C9 counterexample: the claim calls the rendered summary multi-line,
but `__str__` emits no line break anywhere: at the concrete result
holding one error message, the rendered summary contains no newline
character. -/
theorem render_has_no_newline_counterexample :
    containsChars [Char.ofNat 10] (diskFullResult.render.toList) = false := by
  decide

/-- C9 (amended: the summary is a single line, not multi-line):
rendering is deterministic, begins with the status line (specialized
result name and success value), appends the start and end timestamps
only when set, then each non-empty message list as entries
`(index) [code] message` numbered from 1 in append order, grouped info
then warning then error (an empty list contributes no block), followed
by the specialization trailer; the concrete result with one error
`Msg("E001", "disk full")` renders with `(1) [E001] disk full` verbatim
in the error section. -/
theorem render_single_line_format :
    (∀ r : BaseResult,
      r.render = r.resultName ++ " response is " ++ pyBoolStr r.success ++ "."
        ++ (match r.started with | some s => " Started: " ++ s | none => "")
        ++ (match r.ended with | some e => " Ended: " ++ e | none => "")
        ++ strMessages r.infos "Informational"
        ++ strMessages r.warnings "Warning"
        ++ strMessages r.errors "Error"
        ++ r.addl) ∧
    (∀ name, strMessages [] name = "") ∧
    (∀ (msgs : List Msg) (name : String), msgs ≠ [] →
      strMessages msgs name
        = " " ++ name ++ " messages are:"
          ++ concatAll ((List.enumFrom 1 msgs).map
              (fun p => entryRender p.1 p.2))) ∧
    diskFullResult.render
      = " response is True. Error messages are:(1) [E001] disk full" ∧
    containsChars ("(1) [E001] disk full".toList)
      (diskFullResult.render.toList) = true := by
  refine ⟨?_, ?_, ?_, ?_, ?_⟩
  · intro r
    cases hs : r.started <;> cases he : r.ended <;>
      simp only [BaseResult.render, hs, he, String.append_assoc,
        String.append_empty, String.empty_append]
  · intro name
    rfl
  · intro msgs name hne
    cases msgs with
    | nil => exact absurd rfl hne
    | cons m rest =>
      show (" " ++ name ++ " messages are:") ++ strMessagesLoop 1 (m :: rest) = _
      rw [strMessagesLoop_eq_concat_enumFrom 1 (m :: rest)]
  · decide
  · decide

/-- C9 witness: the message-block clause of the theorem at a concrete
non-empty error list. -/
theorem render_single_line_format_witness :
    strMessages [⟨"E001", "disk full"⟩] "Error"
      = " " ++ "Error" ++ " messages are:"
        ++ concatAll ((List.enumFrom 1 [(⟨"E001", "disk full"⟩ : Msg)]).map
            (fun p => entryRender p.1 p.2)) :=
  render_single_line_format.2.2.1 [⟨"E001", "disk full"⟩] "Error" (by decide)

end SfmUtils
